import Mathlib

/-!
Shallow embedding of the BoardGameGeek data extractor core: the XML response
mapping layer (bgg_extractor/schemas.py) and the throttled request gate
(bgg_extractor/client.py), with theorems about the mapping and retry
behaviour.

Conventions of the embedding:
* An XML document is modelled as the element tree that `ET.fromstring`
  produces on a well-formed payload; parse routines take the tree directly.
* Fallible Python code is modelled with `Option`: a parse routine returns
  `none` exactly when the Python original raises an exception that
  propagates out of it.
* Python `int(s)` and `float(s)` string coercions are modelled by `pyInt`
  and `pyFloat` over ASCII strings; a `none` result stands for a raised
  `ValueError`.  IEEE rounding of float literals is abstracted: a finite
  float value is carried as the exact rational written in the literal.
-/

set_option autoImplicit false

namespace BGG

/-- Element tree node: tag, attribute map, optional text, child list
(mirrors `xml.etree.ElementTree.Element`). -/
inductive XML where
  | elem (tag : String) (attrib : List (String × String)) (text : Option String)
      (children : List XML)

def XML.tag : XML → String
  | .elem t _ _ _ => t

def XML.attrib : XML → List (String × String)
  | .elem _ a _ _ => a

def XML.text : XML → Option String
  | .elem _ _ x _ => x

def XML.children : XML → List XML
  | .elem _ _ _ c => c

/-- `element.attrib.get(key)`: lookup in the attribute map. -/
def attribGet (e : XML) (key : String) : Option String :=
  (e.attrib.find? (fun p => p.1 == key)).map (fun p => p.2)

/-- `element.findall(tag)`: all direct children with the given tag, in
document order. -/
def XML.findall (e : XML) (t : String) : List XML :=
  e.children.filter (fun c => c.tag == t)

/-- `element.find(tag)`: first direct child with the given tag. -/
def XML.find (e : XML) (t : String) : Option XML :=
  (e.findall t).head?

/-! ### Python numeric string coercions -/

/-- Decimal value of a digit character. -/
def dval (c : Char) : Nat := c.toNat - 48

/-- Consume a run of digits that may contain single underscores between
digits (PEP 515); returns the accumulated value, the digit count, and the
unconsumed remainder. -/
def digitPartAux : List Char → Nat → Nat → (Nat × Nat × List Char)
  | [], acc, k => (acc, k, [])
  | c :: cs, acc, k =>
    if c.isDigit then digitPartAux cs (acc * 10 + dval c) (k + 1)
    else if c == '_' then
      match cs with
      | c2 :: cs2 =>
        if c2.isDigit then digitPartAux cs2 (acc * 10 + dval c2) (k + 1)
        else (acc, k, c :: cs)
      | [] => (acc, k, [c])
    else (acc, k, c :: cs)

/-- A digit part must start with a digit; otherwise nothing is consumed. -/
def digitPart (cs : List Char) : (Nat × Nat × List Char) :=
  match cs with
  | [] => (0, 0, [])
  | c :: rest => if c.isDigit then digitPartAux rest (dval c) 1 else (0, 0, c :: rest)

/-- Digits making up a whole token: fails if no digit or trailing junk. -/
def intDigits (cs : List Char) : Option Nat :=
  match digitPart cs with
  | (v, k, rest) => if k == 0 || !rest.isEmpty then none else some v

/-- Strip leading and trailing whitespace from a character list (the
stripping Python applies before numeric conversion). -/
def pyStrip (cs : List Char) : List Char :=
  ((cs.dropWhile Char.isWhitespace).reverse.dropWhile Char.isWhitespace).reverse

/-- Lowercase every character (for the case-insensitive float tokens). -/
def lowerChars (cs : List Char) : List Char :=
  cs.map Char.toLower

/-- Python `int(s)` on a string: optional surrounding whitespace, optional
sign, then decimal digits (underscores between digits allowed).  `none`
models a raised `ValueError`. -/
def pyInt (s : String) : Option Int :=
  match pyStrip s.data with
  | [] => none
  | c :: rest =>
    if c == '-' then (intDigits rest).map (fun n => -(n : Int))
    else if c == '+' then (intDigits rest).map (fun n => (n : Int))
    else (intDigits (c :: rest)).map (fun n => (n : Int))

/-- Result of Python `float(s)`: a finite value (exact rational of the
literal), an infinity, or a NaN. -/
inductive PyFloat where
  | finite (q : Rat)
  | inf (neg : Bool)
  | nan (neg : Bool)
  deriving DecidableEq, Repr

/-- Fractional part value: digits `fp` of length `k` after the point. -/
def fracVal (fp k : Nat) : Rat := (fp : Rat) / ((10 : Rat) ^ k)

/-- Apply a decimal exponent to a mantissa. -/
def applyExp (m : Rat) (neg : Bool) (e : Nat) : Rat :=
  if neg then m / (10 : Rat) ^ e else m * (10 : Rat) ^ e

/-- Exponent part after the `e`: optional sign then digits, consuming the
whole remainder. -/
def parseExpPart (cs : List Char) : Option (Bool × Nat) :=
  match cs with
  | [] => none
  | c :: rest =>
    let p := if c == '+' then (false, rest)
             else if c == '-' then (true, rest)
             else (false, c :: rest)
    match digitPart p.2 with
    | (v, k, left) => if k == 0 || !left.isEmpty then none else some (p.1, v)

/-- Numeric float literal body (input already lowercased, sign stripped):
`digits [. digits] [e [sign] digits]` with at least one digit in the
mantissa. -/
def parseNumber (cs : List Char) : Option Rat :=
  match digitPart cs with
  | (ip, ipk, rest) =>
    match rest with
    | [] => if ipk == 0 then none else some (ip : Rat)
    | c :: rest2 =>
      if c == '.' then
        match digitPart rest2 with
        | (fp, fpk, rest3) =>
          if ipk == 0 && fpk == 0 then none
          else
            let m : Rat := (ip : Rat) + fracVal fp fpk
            match rest3 with
            | [] => some m
            | e :: rest4 =>
              if e == 'e' then (parseExpPart rest4).map (fun p => applyExp m p.1 p.2)
              else none
      else if c == 'e' then
        if ipk == 0 then none
        else (parseExpPart rest2).map (fun p => applyExp (ip : Rat) p.1 p.2)
      else none

/-- Python `float(s)` on a string: optional whitespace, optional sign, then
`inf`, `infinity`, `nan` (case insensitive) or a numeric literal.  `none`
models a raised `ValueError`. -/
def pyFloat (s : String) : Option PyFloat :=
  match lowerChars (pyStrip s.data) with
  | [] => none
  | c :: rest =>
    let p := if c == '-' then (true, rest)
             else if c == '+' then (false, rest)
             else (false, c :: rest)
    if p.2 == "inf".data || p.2 == "infinity".data then some (.inf p.1)
    else if p.2 == "nan".data then some (.nan p.1)
    else (parseNumber p.2).map (fun q => .finite (if p.1 then -q else q))

/-! ### Shared parse helpers -/

/-- The pattern `f(x) if x else None` where `f` may raise: a missing or
empty (falsy) string yields `None`; otherwise a coercion failure raises
(outer `none`), success yields the value. -/
def coerceTruthy {α : Type} (f : String → Option α) (o : Option String) :
    Option (Option α) :=
  match o with
  | none => some none
  | some s =>
    if s.isEmpty then some none
    else
      match f s with
      | some v => some (some v)
      | none => none

/-- Run a per-element parser over a node list, propagating the first
exception (the Python `for` loop appending to an accumulator). -/
def parseList {α : Type} (f : XML → Option α) : List XML → Option (List α)
  | [] => some []
  | x :: xs =>
    match f x with
    | none => none
    | some r =>
      match parseList f xs with
      | none => none
      | some rs => some (r :: rs)

/-! ### ThingSchema (schemas.py, lines 53 to 144) -/

/-- `ThingItem` record with pydantic defaults (all scalars `None`, all
lists empty).  The `average` field carries the coerced float. -/
structure ThingItem where
  id : Option Int := none
  type : Option String := none
  name : Option String := none
  description : Option String := none
  yearpublished : Option Int := none
  minplayers : Option Int := none
  maxplayers : Option Int := none
  playingtime : Option Int := none
  minage : Option Int := none
  usersrated : Option Int := none
  average : Option PyFloat := none
  rank : Option Int := none
  categories : List String := []
  mechanics : List String := []
  designers : List String := []
  artists : List String := []
  publishers : List String := []
  deriving DecidableEq, Repr

/-- The all-defaults `ThingItem`. -/
def ThingItem.empty : ThingItem := {}

/-- The fixed `ThingType` enumeration used by the membership test. -/
def thingTypes : List String :=
  ["boardgame", "boardgameexpansion", "boardgameaccessory", "videogame",
   "rpgitem", "rpgissue"]

/-- `cast(ThingType, t) if t in [...] else None` on the `type` attribute. -/
def thingTypeOf (item : XML) : Option String :=
  match attribGet item "type" with
  | some t => if thingTypes.contains t then some t else none
  | none => none

/-- The `get_val` helper: find the tag, read its `value` attribute; a falsy
(empty) value is skipped; a coercion failure is caught and becomes `None`.
The caught `try` block is modelled by `convert` returning `none` on
failure. -/
def get_val {α : Type} (item : XML) (t : String) (convert : String → Option α) :
    Option α :=
  match item.find t with
  | none => none
  | some node =>
    match attribGet node "value" with
    | none => none
    | some v => if v.isEmpty then none else convert v

/-- The `get_text` helper: text content of the first child with the tag. -/
def get_text (item : XML) (t : String) : Option String :=
  match item.find t with
  | none => none
  | some node => node.text

/-- The `get_links` helper: values of `link` children whose `type`
attribute matches, in document order (the list comprehension with the
walrus binding). -/
def get_links (item : XML) (link_type : String) : List String :=
  (item.findall "link").filterMap
    (fun link =>
      if attribGet link "type" == some link_type then attribGet link "value"
      else none)

/-- `item.find("statistics")` then `.find("ratings")`. -/
def ratingsNode (item : XML) : Option XML :=
  match item.find "statistics" with
  | none => none
  | some stats => stats.find "ratings"

/-- Raw `usersrated` attribute string under statistics/ratings. -/
def usersratedRaw (item : XML) : Option String :=
  match ratingsNode item with
  | none => none
  | some r => attribGet r "usersrated"

/-- Raw `average` attribute string under statistics/ratings. -/
def averageRaw (item : XML) : Option String :=
  match ratingsNode item with
  | none => none
  | some r => attribGet r "average"

/-- `ranks.find("rank[@id=...1...]")`: first `rank` child whose `id`
attribute is the primary identifier `1`. -/
def primaryRankNode (ranks : XML) : Option XML :=
  (ranks.children.filter
      (fun c => c.tag == "rank" && attribGet c "id" == some "1")).head?

/-- The `value` attribute of the primary rank entry, reached through
statistics / ratings / ranks. -/
def primaryRankValue (item : XML) : Option String :=
  match ratingsNode item with
  | none => none
  | some ratings =>
    match ratings.find "ranks" with
    | none => none
    | some ranks =>
      match primaryRankNode ranks with
      | none => none
      | some bg => attribGet bg "value"

/-- The rank computation of `ThingSchema.parse_xml`: `rank` stays `None`
unless the primary rank value is truthy and not the `Not Ranked` sentinel,
in which case `int(rank_val)` runs unprotected (outer `none` models the
raised `ValueError`). -/
def rankResult (item : XML) : Option (Option Int) :=
  match primaryRankValue item with
  | none => some none
  | some v =>
    if v.isEmpty then some none
    else if v == "Not Ranked" then some none
    else
      match pyInt v with
      | some n => some (some n)
      | none => none

/-- Parse one `item` element of a thing payload (the loop body of
`ThingSchema.parse_xml`).  `none` models a propagated exception. -/
def parseThingItem (item : XML) : Option ThingItem :=
  match coerceTruthy pyInt (attribGet item "id") with
  | none => none
  | some idv =>
    match rankResult item with
    | none => none
    | some rankv =>
      match coerceTruthy pyInt (usersratedRaw item) with
      | none => none
      | some urv =>
        match coerceTruthy pyFloat (averageRaw item) with
        | none => none
        | some avv =>
          some
            { id := idv
              type := thingTypeOf item
              name := get_val item "name" some
              description := get_text item "description"
              yearpublished := get_val item "yearpublished" pyInt
              minplayers := get_val item "minplayers" pyInt
              maxplayers := get_val item "maxplayers" pyInt
              playingtime := get_val item "playingtime" pyInt
              minage := get_val item "minage" pyInt
              usersrated := urv
              average := avv
              rank := rankv
              categories := get_links item "boardgamecategory"
              mechanics := get_links item "boardgamemechanic"
              designers := get_links item "boardgamedesigner"
              artists := get_links item "boardgameartist"
              publishers := get_links item "boardgamepublisher" }

/-- Container for parsed thing items. -/
structure ThingSchema where
  items : List ThingItem := []
  deriving DecidableEq, Repr

/-- `ThingSchema.parse_xml` over an already-parsed element tree. -/
def ThingSchema.parse_xml (root : XML) : Option ThingSchema :=
  match parseList parseThingItem (root.findall "item") with
  | none => none
  | some its => some ⟨its⟩

/-! ### UserSchema (schemas.py, lines 147 to 210) -/

/-- `UserSchema` record with pydantic defaults.  The four loosely typed
lists carry raw attribute maps. -/
structure UserSchema where
  id : Option Int := none
  name : Option String := none
  firstname : Option String := none
  lastname : Option String := none
  avatar : Option String := none
  registered : Option String := none
  buddies : List (List (String × String)) := []
  guilds : List (List (String × String)) := []
  hot : List (List (String × String)) := []
  top : List (List (String × String)) := []
  deriving DecidableEq, Repr

/-- The all-defaults `UserSchema` (the bare `cls()` result). -/
def UserSchema.empty : UserSchema := {}

/-- The user `get_val` helper: `value` attribute of the named child (no
truthiness filtering here). -/
def userGetVal (usr : XML) (t : String) : Option String :=
  match usr.find t with
  | none => none
  | some node => attribGet node "value"

/-- The user `get_list` helper: `findall("item") or findall("buddy") or
findall("guild")` takes the first nonempty list (Python `or` on lists),
then keeps each attribute map. -/
def userGetList (usr : XML) (t : String) : List (List (String × String)) :=
  match usr.find t with
  | none => []
  | some node =>
    let a := node.findall "item"
    let b := node.findall "buddy"
    let c := node.findall "guild"
    ((if !a.isEmpty then a else if !b.isEmpty then b else c).map
      (fun e => e.attrib))

/-- `UserSchema.parse_xml`: accepts a root that is itself the `user`
element or a root wrapping one; a missing user element yields the default
record.  `none` models the unprotected `int(...)` raising on the `id`
attribute. -/
def UserSchema.parse_xml (root : XML) : Option UserSchema :=
  match (if root.tag == "user" then some root else root.find "user") with
  | none => some UserSchema.empty
  | some usr =>
    match coerceTruthy pyInt (attribGet usr "id") with
    | none => none
    | some idv =>
      some
        { id := idv
          name := attribGet usr "name"
          firstname := userGetVal usr "firstname"
          lastname := userGetVal usr "lastname"
          avatar := userGetVal usr "avatar"
          registered := userGetVal usr "yearregistered"
          buddies := userGetList usr "buddies"
          guilds := userGetList usr "guilds"
          hot := userGetList usr "hot"
          top := userGetList usr "top" }

/-! ### CollectionSchema (schemas.py, lines 213 to 281) -/

/-- One entry of a collection payload. -/
structure CollectionItem where
  objectid : Option Int := none
  subtype : Option String := none
  collid : Option Int := none
  name : Option String := none
  rating : Option PyFloat := none
  status : List (String × String) := []
  comment : Option String := none
  deriving DecidableEq, Repr

/-- The collection rating string: `stats/rating@value`, kept only when
truthy and not the `N/A` sentinel. -/
def collectionRatingRaw (item : XML) : Option String :=
  match item.find "stats" with
  | none => none
  | some stats =>
    match stats.find "rating" with
    | none => none
    | some rnode =>
      match attribGet rnode "value" with
      | none => none
      | some v => if v.isEmpty then none else if v == "N/A" then none else some v

/-- Parse one collection `item` element; `none` models a propagated
exception from the unprotected `int` and `float` coercions. -/
def parseCollectionItem (item : XML) : Option CollectionItem :=
  match coerceTruthy pyInt (attribGet item "objectid") with
  | none => none
  | some oid =>
    match coerceTruthy pyInt (attribGet item "collid") with
    | none => none
    | some cid =>
      match coerceTruthy pyFloat (collectionRatingRaw item) with
      | none => none
      | some rat =>
        some
          { objectid := oid
            subtype := attribGet item "subtype"
            collid := cid
            name := match item.find "name" with
                    | none => none
                    | some n => n.text
            rating := rat
            status := match item.find "status" with
                      | none => []
                      | some st => st.attrib
            comment := match item.find "comment" with
                       | none => none
                       | some c => c.text }

/-- Container for parsed collection items. -/
structure CollectionSchema where
  items : List CollectionItem := []
  deriving DecidableEq, Repr

/-- `CollectionSchema.parse_xml` over an element tree. -/
def CollectionSchema.parse_xml (root : XML) : Option CollectionSchema :=
  match parseList parseCollectionItem (root.findall "item") with
  | none => none
  | some its => some ⟨its⟩

/-! ### PlaysSchema (schemas.py, lines 284 to 349) -/

/-- One play record. -/
structure PlayItem where
  id : Option Int := none
  date : Option String := none
  quantity : Option Int := none
  length : Option Int := none
  location : Option String := none
  comment : Option String := none
  item : Option (List (String × String)) := none
  players : List (List (String × String)) := []
  deriving DecidableEq, Repr

/-- Parse one `play` element; `none` models a propagated exception from
the unprotected `int` coercions. -/
def parsePlayItem (p : XML) : Option PlayItem :=
  match coerceTruthy pyInt (attribGet p "id") with
  | none => none
  | some idv =>
    match coerceTruthy pyInt (attribGet p "quantity") with
    | none => none
    | some q =>
      match coerceTruthy pyInt (attribGet p "length") with
      | none => none
      | some len =>
        some
          { id := idv
            date := attribGet p "date"
            quantity := q
            length := len
            location := attribGet p "location"
            comment := match p.find "comments" with
                       | none => none
                       | some c => c.text
            item := match p.find "item" with
                    | none => none
                    | some it => some it.attrib
            players := match p.find "players" with
                       | none => []
                       | some ps => (ps.findall "player").map (fun pl => pl.attrib) }

/-- Container for parsed plays. -/
structure PlaysSchema where
  plays : List PlayItem := []
  deriving DecidableEq, Repr

/-- `PlaysSchema.parse_xml` over an element tree. -/
def PlaysSchema.parse_xml (root : XML) : Option PlaysSchema :=
  match parseList parsePlayItem (root.findall "play") with
  | none => none
  | some ps => some ⟨ps⟩

/-! ### SearchSchema (schemas.py, lines 406 to 446) -/

/-- Parse one search result `item` into a `ThingItem` (only id, type,
name, yearpublished are filled). -/
def parseSearchItem (item : XML) : Option ThingItem :=
  match coerceTruthy pyInt (attribGet item "id") with
  | none => none
  | some idv =>
    match coerceTruthy pyInt
        (match item.find "yearpublished" with
         | none => none
         | some y => attribGet y "value") with
    | none => none
    | some yp =>
      some
        { ThingItem.empty with
          id := idv
          type := thingTypeOf item
          name := match item.find "name" with
                  | none => none
                  | some n => attribGet n "value"
          yearpublished := yp }

/-- Container for parsed search results. -/
structure SearchSchema where
  items : List ThingItem := []
  deriving DecidableEq, Repr

/-- `SearchSchema.parse_xml` over an element tree. -/
def SearchSchema.parse_xml (root : XML) : Option SearchSchema :=
  match parseList parseSearchItem (root.findall "item") with
  | none => none
  | some its => some ⟨its⟩

/-! ### FamilySchema (schemas.py, lines 449 to 499) -/

/-- One family record. -/
structure FamilyItem where
  id : Option Int := none
  type : Option String := none
  name : Option String := none
  description : Option String := none
  deriving DecidableEq, Repr

/-- Parse one family `item` element; `none` models the unprotected `int`
raising on the `id` attribute. -/
def parseFamilyItem (item : XML) : Option FamilyItem :=
  match coerceTruthy pyInt (attribGet item "id") with
  | none => none
  | some idv =>
    some
      { id := idv
        type := attribGet item "type"
        name := match item.find "name" with
                | none => none
                | some n => attribGet n "value"
        description := match item.find "description" with
                       | none => none
                       | some d => d.text }

/-- Container for parsed family items. -/
structure FamilySchema where
  items : List FamilyItem := []
  deriving DecidableEq, Repr

/-- `FamilySchema.parse_xml` over an element tree. -/
def FamilySchema.parse_xml (root : XML) : Option FamilySchema :=
  match parseList parseFamilyItem (root.findall "item") with
  | none => none
  | some its => some ⟨its⟩

/-! ### Request gate (client.py, BGGClient)

Wall-clock throttling and sleeping are timing behaviour outside the
functional model; what is embedded is the control flow of `_request_xml`
over the sequence of physical responses, the header construction of the
two client-creation paths, the token resolution of the constructor, and
the parameter assembly of `get_thing` and `get_family`. -/

/-- A physical HTTP response: status code and body text. -/
structure HttpResp where
  status : Nat
  body : String
  deriving DecidableEq, Repr

/-- Outcome of `_request_xml`: the returned body, or one of the two
raised `RuntimeError` kinds with the data the message carries. -/
inductive ReqOutcome where
  | success (body : String)
  | queuedTooLong (path : String) (params : List (String × String))
  | badStatus (status : Nat) (body : String)
  deriving DecidableEq, Repr

/-- The `while True` loop of `_request_xml`: `resp i` is the response to
the i-th physical request (0-based).  `attempts` is the 202 counter,
`idx` the number of physical requests already made; the result pairs the
outcome with the total number of physical requests.  Fuel only bounds the
recursion; `request_xml` supplies enough for the loop as written. -/
def requestLoop (maxPoll : Nat) (resp : Nat → HttpResp) (path : String)
    (params : List (String × String)) :
    Nat → Nat → Nat → Option (ReqOutcome × Nat)
  | _, _, 0 => none
  | attempts, idx, fuel + 1 =>
    if (resp idx).status == 200 then some (.success (resp idx).body, idx + 1)
    else if (resp idx).status == 202 then
      if maxPoll ≤ attempts + 1 then some (.queuedTooLong path params, idx + 1)
      else requestLoop maxPoll resp path params (attempts + 1) (idx + 1) fuel
    else some (.badStatus (resp idx).status (resp idx).body, idx + 1)

/-- `_request_xml`: run the loop from a zero attempt counter.  `maxPoll`
plus one fuel always suffices because the counter grows by one per
iteration and the loop errors out once it reaches `maxPoll`. -/
def request_xml (maxPoll : Nat) (resp : Nat → HttpResp) (path : String)
    (params : List (String × String)) : Option (ReqOutcome × Nat) :=
  requestLoop maxPoll resp path params 0 0 (maxPoll + 1)

/-- Constructor token resolution: `token or os.getenv("BGG_API_TOKEN")`,
then a `ValueError` (`none`) when the result is falsy. -/
def initToken (token envToken : Option String) : Option String :=
  match (match token with
         | some s => if s.isEmpty then envToken else some s
         | none => envToken) with
  | none => none
  | some s => if s.isEmpty then none else some s

/-- The bearer header value. -/
def bearerHeader (t : String) : String := "Bearer " ++ t

/-- Headers set on the persistent client created by the async context
manager (`__aenter__`): only the authorization header. -/
def aenterHeaders (token : Option String) : List (String × String) :=
  match token with
  | none => []
  | some t => if t.isEmpty then [] else [("Authorization", bearerHeader t)]

/-- Headers set on a per-call temporary client (`_get_client` without a
persistent client): the static identifying header, then the authorization
header. -/
def tempClientHeaders (token : Option String) : List (String × String) :=
  ("User-Agent", "BGG-Extractor/1.0.0") ::
    (match token with
     | none => []
     | some t => if t.isEmpty then [] else [("Authorization", bearerHeader t)])

/-- Header lookup by name. -/
def hdrGet (hs : List (String × String)) (k : String) : Option String :=
  (hs.find? (fun p => p.1 == k)).map (fun p => p.2)

/-- Arguments of `get_thing` with their Python defaults. -/
structure GetThingArgs where
  ids : List Int
  thing_type : Option String := none
  versions : Bool := false
  videos : Bool := false
  stats : Bool := true
  historical : Bool := false
  marketplace : Bool := false
  comments : Bool := false
  ratingcomments : Bool := false
  page : Int := 1
  pagesize : Int := 100

/-- The staged `get_thing` up to the physical request: `none` models the
`ValueError` raised on an empty ids list before any request; otherwise
the endpoint path and assembled query parameters handed to
`_request_xml`.  Non-string parameter values are rendered as their string
form. -/
def get_thing_request (a : GetThingArgs) : Option (String × List (String × String)) :=
  if a.ids.isEmpty then none
  else
    let params := [("id", String.intercalate "," (a.ids.map toString))]
    let params := params ++
      (match a.thing_type with
       | none => []
       | some t => if t.isEmpty then [] else [("type", t)])
    let params := params ++ (if a.versions then [("versions", "1")] else [])
    let params := params ++ (if a.videos then [("videos", "1")] else [])
    let params := params ++ (if a.stats then [("stats", "1")] else [])
    let params := params ++ (if a.historical then [("historical", "1")] else [])
    let params := params ++ (if a.marketplace then [("marketplace", "1")] else [])
    let params := params ++ (if a.comments then [("comments", "1")] else [])
    let params := params ++ (if a.ratingcomments then [("ratingcomments", "1")] else [])
    let params := params ++ (if a.page != 0 then [("page", toString a.page)] else [])
    let params := params ++ (if a.pagesize != 0 then [("pagesize", toString a.pagesize)] else [])
    some ("thing", params)

/-- Arguments of `get_family`. -/
structure GetFamilyArgs where
  ids : List Int
  family_type : Option String := none

/-- The staged `get_family` up to the physical request, as for
`get_thing_request`. -/
def get_family_request (a : GetFamilyArgs) : Option (String × List (String × String)) :=
  if a.ids.isEmpty then none
  else
    let params := [("id", String.intercalate "," (a.ids.map toString))]
    let params := params ++
      (match a.family_type with
       | none => []
       | some t => if t.isEmpty then [] else [("type", t)])
    some ("family", params)

/-! ### Spec-side characterisations and concrete payloads used in the
theorems below -/

/-- Spec-side description of the rank field: it is determined by the value
of the primary rank entry alone — absent when that entry is missing, falsy
or the unranked sentinel, otherwise the coerced integer. -/
def rankFromPrimarySpec : Option String → Option Int
  | none => none
  | some v =>
    if v.isEmpty then none
    else if v == "Not Ranked" then none
    else pyInt v

/-- Spec-side description of a tag-list field: keep exactly the `link`
children whose `type` attribute matches and that carry a value, in
document order, and take their values. -/
def tagListSpec (item : XML) (lt : String) : List String :=
  (item.children.filter
      (fun l => l.tag == "link" && attribGet l "type" == some lt
        && (attribGet l "value").isSome)).map
    (fun l => (attribGet l "value").getD "")

/-- The `value` attribute of the first child with the given tag (the
lookup path shared by the `get_val` helpers). -/
def childValue (item : XML) (t : String) : Option String :=
  match item.find t with
  | none => none
  | some node => attribGet node "value"

/-- A minimal thing payload whose single item carries only a
`yearpublished` child with the given value string. -/
def ypPayload (s : String) : XML :=
  .elem "items" [] none
    [.elem "item" [] none [.elem "yearpublished" [("value", s)] none []]]

/-- A minimal thing payload whose single item carries only an `id`
attribute with the given string. -/
def idPayload (s : String) : XML :=
  .elem "items" [] none [.elem "item" [("id", s)] none []]

/-- A thing item whose rankings hold a non-primary rank entry and a
primary rank entry carrying the unranked sentinel. -/
def c3Item : XML :=
  .elem "item" [] none
    [.elem "statistics" [] none
      [.elem "ratings" [] none
        [.elem "ranks" [] none
          [.elem "rank" [("id", "2"), ("value", "5")] none [],
           .elem "rank" [("id", "1"), ("value", "Not Ranked")] none []]]]]

/-- A thing item with three link children of which two match the
category kind. -/
def c4Item : XML :=
  .elem "item" [] none
    [.elem "link" [("type", "boardgamecategory"), ("value", "War")] none [],
     .elem "link" [("type", "boardgamemechanic"), ("value", "Dice")] none [],
     .elem "link" [("type", "boardgamecategory"), ("value", "Economy")] none []]

/-- A thing item in which every numeric field carries the empty string. -/
def c5Item : XML :=
  .elem "item" [] none
    [.elem "yearpublished" [("value", "")] none [],
     .elem "minplayers" [("value", "")] none [],
     .elem "maxplayers" [("value", "")] none [],
     .elem "playingtime" [("value", "")] none [],
     .elem "minage" [("value", "")] none [],
     .elem "statistics" [] none
       [.elem "ratings" [("usersrated", ""), ("average", "")] none
         [.elem "ranks" [] none
           [.elem "rank" [("id", "1"), ("value", "")] none []]]]]

/-- A concrete single user element. -/
def c6User : XML :=
  .elem "user" [("id", "7"), ("name", "alex")] none
    [.elem "firstname" [("value", "Al")] none []]

/-- A response sequence: two accepted-pending responses, then a client
error. -/
def c7Resp : Nat → HttpResp :=
  fun i => if i < 2 then ⟨202, "Queued"⟩ else ⟨404, "not found"⟩

/-! ### Shared lemmas -/

/-- Inversion of a successful `parseThingItem`: each field of the record
is the corresponding lookup on the item. -/
theorem parseThingItem_inv (item : XML) (r : ThingItem)
    (h : parseThingItem item = some r) :
    rankResult item = some r.rank ∧
    coerceTruthy pyInt (usersratedRaw item) = some r.usersrated ∧
    coerceTruthy pyFloat (averageRaw item) = some r.average ∧
    r.yearpublished = get_val item "yearpublished" pyInt ∧
    r.minplayers = get_val item "minplayers" pyInt ∧
    r.maxplayers = get_val item "maxplayers" pyInt ∧
    r.playingtime = get_val item "playingtime" pyInt ∧
    r.minage = get_val item "minage" pyInt := by
  unfold parseThingItem at h
  repeat' split at h
  all_goals simp_all
  subst h
  simp

/-- The `f(x) if x else None` pattern raises exactly when the string is
truthy and the coercion fails. -/
theorem coerceTruthy_raise {α : Type} (f : String → Option α) (s : String)
    (h1 : s.isEmpty = false) (h2 : f s = none) :
    coerceTruthy f (some s) = none := by
  simp [coerceTruthy, h1, h2]

/-- Under an all-202 response sequence the polling loop fails after
exactly the remaining number of allowed attempts. -/
theorem requestLoop_all202 (maxPoll : Nat) (resp : Nat → HttpResp) (path : String)
    (params : List (String × String)) (h202 : ∀ i, (resp i).status = 202) :
    ∀ fuel attempts idx, attempts < maxPoll → maxPoll - attempts ≤ fuel →
      requestLoop maxPoll resp path params attempts idx fuel =
        some (.queuedTooLong path params, idx + (maxPoll - attempts)) := by
  intro fuel
  induction fuel with
  | zero => intro attempts idx h1 h2; omega
  | succ n ih =>
    intro attempts idx h1 h2
    unfold requestLoop
    rw [h202 idx]
    by_cases hm : maxPoll ≤ attempts + 1
    · have he : maxPoll - attempts = 1 := by omega
      simp [hm, he]
    · rw [if_neg (by simp), if_pos (by simp), if_neg hm,
        ih (attempts + 1) (idx + 1) (by omega) (by omega)]
      have he : idx + 1 + (maxPoll - (attempts + 1)) = idx + (maxPoll - attempts) := by
        omega
      rw [he]

/-- If the first responses are all 202 and the next one is neither 200
nor 202, the loop stops there with a bad-status outcome. -/
theorem requestLoop_bad (maxPoll : Nat) (resp : Nat → HttpResp) (path : String)
    (params : List (String × String)) :
    ∀ j attempts idx fuel,
      (∀ i, i < j → (resp (idx + i)).status = 202) →
      attempts + j < maxPoll → j < fuel →
      (resp (idx + j)).status ≠ 200 → (resp (idx + j)).status ≠ 202 →
      requestLoop maxPoll resp path params attempts idx fuel =
        some (.badStatus (resp (idx + j)).status (resp (idx + j)).body, idx + j + 1) := by
  intro j
  induction j with
  | zero =>
    intro attempts idx fuel h202 hlt hfuel h200 h202b
    match fuel, hfuel with
    | f + 1, _ =>
      unfold requestLoop
      simp only [Nat.add_zero] at h200 h202b ⊢
      rw [if_neg (by simpa using h200), if_neg (by simpa using h202b)]
  | succ n ih =>
    intro attempts idx fuel h202 hlt hfuel h200 h202b
    match fuel, hfuel with
    | f + 1, _ =>
      unfold requestLoop
      have h0 : (resp idx).status = 202 := by
        have hh := h202 0 (by omega)
        simpa using hh
      rw [h0, if_neg (by simp), if_pos (by simp), if_neg (by omega)]
      have hrec := ih (attempts + 1) (idx + 1) f
        (fun i hi => by
          have hh := h202 (i + 1) (by omega)
          rwa [show idx + (i + 1) = idx + 1 + i by omega] at hh)
        (by omega) (by omega)
        (by rwa [show idx + 1 + n = idx + (n + 1) by omega])
        (by rwa [show idx + 1 + n = idx + (n + 1) by omega])
      rw [hrec, show idx + 1 + n = idx + (n + 1) by omega]

/-- A successful rank computation agrees with the spec-side
characterisation through the primary rank value. -/
theorem rankResult_spec (item : XML) (rv : Option Int)
    (h : rankResult item = some rv) :
    rv = rankFromPrimarySpec (primaryRankValue item) := by
  unfold rankResult at h
  unfold rankFromPrimarySpec
  cases hp : primaryRankValue item with
  | none => rw [hp] at h; simp_all
  | some v =>
    rw [hp] at h
    by_cases h1 : v.isEmpty <;> by_cases h2 : v == "Not Ranked" <;>
      simp [h1, h2] at h ⊢ <;> try simp_all
    cases h3 : pyInt v <;> rw [h3] at h <;> simp_all

/-- An empty value attribute makes the caught `get_val` lookup absent. -/
theorem get_val_of_empty {α : Type} (item : XML) (t : String)
    (conv : String → Option α) (h : childValue item t = some "") :
    get_val item t conv = none := by
  unfold get_val
  cases hf : item.find t with
  | none => rfl
  | some node =>
    have hv : attribGet node "value" = some "" := by
      unfold childValue at h
      rw [hf] at h
      simpa using h
    simp [hf, hv, show ("".isEmpty : Bool) = true from rfl]

/-- A successfully resolved construction token is nonempty. -/
theorem initToken_ne_empty (tok env : Option String) (t : String)
    (h : initToken tok env = some t) : t.isEmpty = false := by
  unfold initToken at h
  repeat' split at h
  all_goals simp_all

/-! ### Claim theorems -/

/-- C1, counterexample: a well-formed thing payload whose item carries
the non-numeric id string `x` makes `ThingSchema.parse_xml` propagate a
coercion exception (modelled by `none`), refuting the claim that no
numeric-coercion exception ever escapes a parse routine. -/
theorem C1_counterexample : ThingSchema.parse_xml (idPayload "x") = none := rfl

/-- C1, amended: numeric fields read through the caught `get_val` helper
are coerced-or-absent for every value string, and the whole parse
succeeds; a numeric attribute coerced directly (here the item id) makes
the parse raise exactly when its string is truthy and non-coercible. -/
theorem C1_coercion_containment :
    (∀ s : String, ThingSchema.parse_xml (ypPayload s) =
      some ⟨[{ ThingItem.empty with
                yearpublished := if s.isEmpty then none else pyInt s }]⟩) ∧
    (∀ s : String, s.isEmpty = false → pyInt s = none →
      ThingSchema.parse_xml (idPayload s) = none) := by
  constructor
  · intro s
    rfl
  · intro s h1 h2
    have hp : parseThingItem (.elem "item" [("id", s)] none []) = none := by
      unfold parseThingItem
      rw [show attribGet (.elem "item" [("id", s)] none []) "id" = some s from rfl]
      rw [coerceTruthy_raise pyInt s h1 h2]
    simp [ThingSchema.parse_xml, idPayload, XML.findall, XML.children, parseList, hp]

/-- C1 witness: the amended theorem applied at the non-numeric string
`19x9`. -/
theorem C1_coercion_containment_witness :
    ("19x9".isEmpty : Bool) = false ∧ pyInt "19x9" = none ∧
      ThingSchema.parse_xml (idPayload "19x9") = none :=
  ⟨rfl, rfl, C1_coercion_containment.2 "19x9" rfl rfl⟩

/-- C2: a gate with max-poll-attempts K (K at least 1) whose every
physical request receives a 202 fails with the polling-exhausted error
carrying the endpoint path and the parameters, after exactly K physical
attempts. -/
theorem C2_polling_exhausted (K : Nat) (resp : Nat → HttpResp) (path : String)
    (params : List (String × String)) (hK : 1 ≤ K)
    (h202 : ∀ i, (resp i).status = 202) :
    request_xml K resp path params = some (.queuedTooLong path params, K) := by
  have h := requestLoop_all202 K resp path params h202 (K + 1) 0 0 (by omega) (by omega)
  simpa using h

/-- C2 witness: the theorem applied at K = 3 with a constant 202
response sequence. -/
theorem C2_polling_exhausted_witness :
    request_xml 3 (fun _ => ⟨202, "Queued"⟩) "thing" [("id", "1")] =
      some (.queuedTooLong "thing" [("id", "1")], 3) :=
  C2_polling_exhausted 3 (fun _ => ⟨202, "Queued"⟩) "thing" [("id", "1")]
    (by omega) (fun _ => rfl)

/-- C3: the rank field of a parsed thing item is determined by the
primary rank entry alone (so non-primary entries are never used), and it
is absent when the primary entry carries the unranked sentinel. -/
theorem C3_primary_rank (item : XML) (r : ThingItem)
    (h : parseThingItem item = some r) :
    r.rank = rankFromPrimarySpec (primaryRankValue item) ∧
      (primaryRankValue item = some "Not Ranked" → r.rank = none) := by
  have h1 := (parseThingItem_inv item r h).1
  have h2 := rankResult_spec item r.rank h1
  refine ⟨h2, fun hp => ?_⟩
  rw [h2, hp]
  rfl

/-- C3 witness: the theorem applied to an item holding a non-primary
rank entry and a primary entry carrying the sentinel. -/
theorem C3_primary_rank_witness :
    parseThingItem c3Item = some ThingItem.empty ∧
      primaryRankValue c3Item = some "Not Ranked" ∧ ThingItem.empty.rank = none :=
  ⟨rfl, rfl, (C3_primary_rank c3Item ThingItem.empty rfl).2 rfl⟩

/-- C4: a tag-list field holds exactly the values of the link children
whose type attribute matches the requested kind, in document order with
no deduplication; in particular three links of which two match the
category kind yield exactly those two values in order. -/
theorem C4_link_scan :
    (∀ item lt, get_links item lt = tagListSpec item lt) ∧
      get_links c4Item "boardgamecategory" = ["War", "Economy"] := by
  constructor
  · intro item lt
    unfold get_links tagListSpec XML.findall
    induction item.children with
    | nil => rfl
    | cons x xs ih =>
      by_cases h1 : x.tag = "link"
      · by_cases h2 : attribGet x "type" = some lt
        · cases h3 : attribGet x "value" with
          | none =>
            simp [List.filter_cons, List.filterMap_cons, h1, h2, h3]
            simpa using ih
          | some v =>
            simp [List.filter_cons, List.filterMap_cons, h1, h2, h3]
            simpa using ih
        · simp [List.filter_cons, List.filterMap_cons, h1, h2]
          simpa using ih
      · simp [List.filter_cons, h1]
        simpa using ih
  · rfl

/-- C5: in a successfully parsed thing item, every numeric field whose
value string in the payload is the empty string comes out absent — not
zero and not an error. -/
theorem C5_empty_string_absent (item : XML) (r : ThingItem)
    (h : parseThingItem item = some r) :
    (childValue item "yearpublished" = some "" → r.yearpublished = none) ∧
    (childValue item "minplayers" = some "" → r.minplayers = none) ∧
    (childValue item "maxplayers" = some "" → r.maxplayers = none) ∧
    (childValue item "playingtime" = some "" → r.playingtime = none) ∧
    (childValue item "minage" = some "" → r.minage = none) ∧
    (usersratedRaw item = some "" → r.usersrated = none) ∧
    (averageRaw item = some "" → r.average = none) ∧
    (primaryRankValue item = some "" → r.rank = none) := by
  obtain ⟨hr, hu, ha, h5, h6, h7, h8, h9⟩ := parseThingItem_inv item r h
  refine ⟨fun he => ?_, fun he => ?_, fun he => ?_, fun he => ?_, fun he => ?_,
    fun he => ?_, fun he => ?_, fun he => ?_⟩
  · rw [h5]; exact get_val_of_empty item "yearpublished" pyInt he
  · rw [h6]; exact get_val_of_empty item "minplayers" pyInt he
  · rw [h7]; exact get_val_of_empty item "maxplayers" pyInt he
  · rw [h8]; exact get_val_of_empty item "playingtime" pyInt he
  · rw [h9]; exact get_val_of_empty item "minage" pyInt he
  · rw [he] at hu
    simpa [coerceTruthy, show ("".isEmpty : Bool) = true from rfl] using hu.symm
  · rw [he] at ha
    simpa [coerceTruthy, show ("".isEmpty : Bool) = true from rfl] using ha.symm
  · unfold rankResult at hr
    rw [he] at hr
    simpa [show ("".isEmpty : Bool) = true from rfl] using hr.symm

/-- C5 witness: the theorem applied to an item whose numeric fields all
carry the empty string; the parse succeeds with every field absent. -/
theorem C5_empty_string_absent_witness :
    parseThingItem c5Item = some ThingItem.empty ∧
      ThingItem.empty.yearpublished = none ∧ ThingItem.empty.usersrated = none ∧
      ThingItem.empty.rank = none :=
  ⟨rfl, (C5_empty_string_absent c5Item ThingItem.empty rfl).1 rfl,
    (C5_empty_string_absent c5Item ThingItem.empty rfl).2.2.2.2.2.1 rfl,
    (C5_empty_string_absent c5Item ThingItem.empty rfl).2.2.2.2.2.2.2 rfl⟩

/-- C6: parsing a user element directly and parsing a collection root
wrapping that one element produce the same record. -/
theorem C6_wrapped_equals_unwrapped (u : XML) (wtag : String)
    (wattrs : List (String × String)) (wtext : Option String)
    (hu : u.tag = "user") (hw : wtag ≠ "user") :
    UserSchema.parse_xml u = UserSchema.parse_xml (.elem wtag wattrs wtext [u]) := by
  unfold UserSchema.parse_xml
  have h1 : (u.tag == "user") = true := by simp [hu]
  have h2 : ((XML.elem wtag wattrs wtext [u]).tag == "user") = false := by
    simp [XML.tag, hw]
  simp [h1, h2, XML.find, XML.findall, XML.children, hu]

/-- C6 witness: the theorem applied to a concrete user element and the
wrapper tag `users`. -/
theorem C6_wrapped_equals_unwrapped_witness :
    UserSchema.parse_xml c6User = UserSchema.parse_xml (.elem "users" [] none [c6User]) :=
  C6_wrapped_equals_unwrapped c6User "users" [] none rfl (by decide)

/-- C7: when the first responses are all 202 and the next physical
response has a status that is neither 200 nor 202, the gate fails at
once with an error carrying that status and body, and no further
physical attempt is made. -/
theorem C7_bad_status_immediate (maxPoll : Nat) (resp : Nat → HttpResp)
    (path : String) (params : List (String × String)) (j : Nat)
    (h202 : ∀ i, i < j → (resp i).status = 202) (hj : j < maxPoll)
    (h200 : (resp j).status ≠ 200) (h202b : (resp j).status ≠ 202) :
    request_xml maxPoll resp path params =
      some (.badStatus (resp j).status (resp j).body, j + 1) := by
  have h := requestLoop_bad maxPoll resp path params j 0 0 (maxPoll + 1)
    (fun i hi => by simpa using h202 i hi) (by omega) (by omega)
    (by simpa using h200) (by simpa using h202b)
  simpa using h

/-- C7 witness: the theorem applied to two 202 responses followed by a
404. -/
theorem C7_bad_status_immediate_witness :
    request_xml 5 c7Resp "thing" [] = some (.badStatus 404 "not found", 3) :=
  C7_bad_status_immediate 5 c7Resp "thing" [] 2 (by decide) (by omega)
    (by decide) (by decide)

/-- C8, counterexample: construction succeeds with token `tok`, yet the
client created by the async context manager sets no static identifying
header, refuting the claim that every physical request carries it. -/
theorem C8_counterexample :
    initToken (some "tok") none = some "tok" ∧
      hdrGet (aenterHeaders (some "tok")) "User-Agent" = none :=
  ⟨rfl, rfl⟩

/-- C8, amended: with a successfully constructed token, per-call
temporary clients carry both the static identifying header and the
bearer authorization header, while the context-manager client carries
only the bearer header. -/
theorem C8_headers (tok env : Option String) (t : String)
    (h : initToken tok env = some t) :
    hdrGet (tempClientHeaders (some t)) "User-Agent" = some "BGG-Extractor/1.0.0" ∧
    hdrGet (tempClientHeaders (some t)) "Authorization" = some (bearerHeader t) ∧
    hdrGet (aenterHeaders (some t)) "Authorization" = some (bearerHeader t) := by
  have ht := initToken_ne_empty tok env t h
  refine ⟨?_, ?_, ?_⟩ <;>
    simp [tempClientHeaders, aenterHeaders, hdrGet, bearerHeader, ht]

/-- C8 witness: the amended theorem applied at the token `abc`. -/
theorem C8_headers_witness :
    initToken (some "abc") none = some "abc" ∧
      hdrGet (tempClientHeaders (some "abc")) "User-Agent" = some "BGG-Extractor/1.0.0" ∧
      hdrGet (tempClientHeaders (some "abc")) "Authorization" = some (bearerHeader "abc") ∧
      hdrGet (aenterHeaders (some "abc")) "Authorization" = some (bearerHeader "abc") :=
  ⟨rfl, (C8_headers (some "abc") none "abc" rfl).1,
    (C8_headers (some "abc") none "abc" rfl).2.1,
    (C8_headers (some "abc") none "abc" rfl).2.2⟩

/-- C9: a user payload whose root is not a user element and has no user
child parses to the all-defaults record instead of raising. -/
theorem C9_missing_user_default (root : XML) (h1 : root.tag ≠ "user")
    (h2 : root.find "user" = none) :
    UserSchema.parse_xml root = some UserSchema.empty := by
  have hb : (root.tag == "user") = false := by simp [h1]
  simp [UserSchema.parse_xml, hb, h2]

/-- C9 witness: the theorem applied to an empty `users` root. -/
theorem C9_missing_user_default_witness :
    UserSchema.parse_xml (.elem "users" [] none []) = some UserSchema.empty :=
  C9_missing_user_default (.elem "users" [] none []) (by decide) rfl

/-- C10: get_thing and get_family reject an empty ids list before any
physical request (modelled by the staged request returning `none`), and
accept every non-empty ids list. -/
theorem C10_empty_ids_guard :
    (∀ a : GetThingArgs, a.ids = [] → get_thing_request a = none) ∧
    (∀ a : GetThingArgs, a.ids ≠ [] → (get_thing_request a).isSome = true) ∧
    (∀ a : GetFamilyArgs, a.ids = [] → get_family_request a = none) ∧
    (∀ a : GetFamilyArgs, a.ids ≠ [] → (get_family_request a).isSome = true) := by
  refine ⟨fun a h => ?_, fun a h => ?_, fun a h => ?_, fun a h => ?_⟩
  · cases hids : a.ids with
    | nil => simp [get_thing_request, hids]
    | cons x xs => simp [hids] at h
  · cases hids : a.ids with
    | nil => exact absurd hids h
    | cons x xs => simp [get_thing_request, hids]
  · cases hids : a.ids with
    | nil => simp [get_family_request, hids]
    | cons x xs => simp [hids] at h
  · cases hids : a.ids with
    | nil => exact absurd hids h
    | cons x xs => simp [get_family_request, hids]

/-- C10 witness: the theorem applied to empty and non-empty id lists. -/
theorem C10_empty_ids_guard_witness :
    get_thing_request { ids := [] } = none ∧
      (get_thing_request { ids := [1, 2] }).isSome = true ∧
      get_family_request { ids := [] } = none ∧
      (get_family_request { ids := [3] }).isSome = true :=
  ⟨C10_empty_ids_guard.1 { ids := [] } rfl,
    C10_empty_ids_guard.2.1 { ids := [1, 2] } (by decide),
    C10_empty_ids_guard.2.2.1 { ids := [] } rfl,
    C10_empty_ids_guard.2.2.2 { ids := [3] } (by decide)⟩

end BGG
